import Mathlib

set_option autoImplicit false

/-
Shallow embedding of hummingbot/core/data_type/order_book_tracker.py
(class OrderBookTracker).  Python dictionaries are modelled as association
lists over String keys, asyncio queues as FIFO lists, asyncio tasks as
handles carrying an id, and the collections.deque used for the past-diffs
window as a plain list.  Each long-running coroutine loop is embedded as a
per-iteration step function on explicit state; the try/except structure of
every loop is embedded by an iteration wrapper over a loop-input type that
can deliver either a message or an injected exception.
-/

namespace OrderBookTrackerSpec

/-- Message discriminant, mirroring OrderBookMessageType (DIFF / SNAPSHOT / TRADE). -/
inductive OrderBookMessageType where
  | DIFF
  | SNAPSHOT
  | TRADE
  deriving DecidableEq

/-- Modelled from the spec: TradeType (the side of a trade) lives in the external
events module (hummingbot.core.event.events), not under src/; only its two values
and their numeric codes are needed by the tracker code. -/
inductive TradeType where
  | BUY
  | SELL
  deriving DecidableEq

/-- Numeric value of a TradeType member, as used by the payload comparison
float(TradeType.SELL.value) in the trade emitter. -/
def TradeType.value : TradeType → Int
  | .BUY => 1
  | .SELL => 2

/-- An OrderBookMessage: discriminant, trading pair, update id, timestamp, and the
payload fields the tracker reads (bids/asks for diffs, price/amount/trade_type
content entries for trades).  Prices and sizes are carried as integers; the
tracker never computes with them, it only passes them through. -/
structure OrderBookMessage where
  type : OrderBookMessageType
  trading_pair : String
  update_id : Int
  timestamp : Int
  bids : List (Int × Int)
  asks : List (Int × Int)
  content_price : Int
  content_amount : Int
  content_trade_type : Int
  deriving DecidableEq

/-- The OrderBookTradeEvent constructed by the trade emitter. -/
structure OrderBookTradeEvent where
  trading_pair : String
  timestamp : Int
  price : Int
  amount : Int
  type : TradeType
  deriving DecidableEq

/-- One operation applied to an order book, recorded in the order of application. -/
inductive BookEvent where
  | applyDiffs (bids asks : List (Int × Int)) (update_id : Int)
  | restoreFromSnapshotAndDiffs (snapshot : OrderBookMessage) (diffs : List OrderBookMessage)
  | applyTrade (event : OrderBookTradeEvent)
  deriving DecidableEq

/-- Modelled from the spec: the Book State (class OrderBook) is an external
collaborator, not under src/.  The tracker only reads snapshot_uid and invokes
apply_diffs, restore_from_snapshot_and_diffs and apply_trade; we model it as the
current snapshot_uid plus a log of the operations applied, with snapshot_uid
updated to the update_id of the message just applied as the spec's Book State
invariant states. -/
structure OrderBook where
  snapshot_uid : Int
  applied : List BookEvent
  deriving DecidableEq

/-- Modelled from the spec: apply_diffs applies an incremental update; the log
records the call and snapshot_uid advances to the diff's update_id. -/
def OrderBook.apply_diffs (book : OrderBook) (bids asks : List (Int × Int))
    (update_id : Int) : OrderBook :=
  { snapshot_uid := update_id
    applied := book.applied ++ [BookEvent.applyDiffs bids asks update_id] }

/-- Modelled from the spec: restore_from_snapshot_and_diffs re-baselines the book
from a snapshot message and replays the given buffered diffs; the log records
exactly which diff list was handed over. -/
def OrderBook.restore_from_snapshot_and_diffs (book : OrderBook)
    (message : OrderBookMessage) (past_diffs : List OrderBookMessage) : OrderBook :=
  { snapshot_uid := message.update_id
    applied := book.applied ++ [BookEvent.restoreFromSnapshotAndDiffs message past_diffs] }

/-- Modelled from the spec: apply_trade records the trade event against the book. -/
def OrderBook.apply_trade (book : OrderBook) (event : OrderBookTradeEvent) : OrderBook :=
  { book with applied := book.applied ++ [BookEvent.applyTrade event] }

/-- An asyncio task handle: an identifier plus the done flag read by
_refresh_tracking_tasks. -/
structure PyTask where
  id : Nat
  done : Bool
  deriving DecidableEq

/-- The entry returned by data_source.get_tracking_pairs per trading pair. -/
structure OrderBookTrackerEntry where
  order_book : OrderBook
  deriving DecidableEq

/-- Python exceptions distinguished by the tracker's except clauses. -/
inductive PyExc where
  | cancelledError
  | keyError (key : String)
  | otherError
  deriving DecidableEq

/-- Lookup in an association list modelling a Python dict (d[k] / k in d). -/
def dictGet? {α : Type} (d : List (String × α)) (k : String) : Option α :=
  match d with
  | [] => none
  | (k2, v) :: rest => if k2 = k then some v else dictGet? rest k

/-- Assignment d[k] = v on an association list modelling a Python dict. -/
def dictSet {α : Type} (d : List (String × α)) (k : String) (v : α) :
    List (String × α) :=
  match d with
  | [] => [(k, v)]
  | (k2, v2) :: rest => if k2 = k then (k, v) :: rest else (k2, v2) :: dictSet rest k v

/-- Deletion del d[k] on an association list modelling a Python dict. -/
def dictDel {α : Type} (d : List (String × α)) (k : String) : List (String × α) :=
  match d with
  | [] => []
  | (k2, v2) :: rest => if k2 = k then dictDel rest k else (k2, v2) :: dictDel rest k

/-- The mutable state of an OrderBookTracker instance: the four per-instrument
maps, the singleton task fields, and a log of the cancel signals delivered to
tasks (a task id appears in cancel_signals exactly when .cancel() was called on
that task handle). -/
structure Tracker where
  tracking_tasks : List (String × PyTask)
  order_books : List (String × OrderBook)
  tracking_message_queues : List (String × List OrderBookMessage)
  past_diffs_windows : List (String × List OrderBookMessage)
  order_book_diff_listener_task : Option PyTask
  order_book_trade_listener_task : Option PyTask
  order_book_snapshot_listener_task : Option PyTask
  order_book_diff_router_task : Option PyTask
  order_book_snapshot_router_task : Option PyTask
  emit_trade_event_task : Option PyTask
  refresh_tracking_task : Option PyTask
  cancel_signals : List Nat
  deriving DecidableEq

/-- Loop-local accepted/rejected counters kept by _order_book_diff_router and
_emit_trade_event_loop. -/
structure RouterCounters where
  messages_accepted : Nat
  messages_rejected : Nat
  deriving DecidableEq

/-- One iteration of the _order_book_diff_router loop body on a dequeued message:
reject (count only) when the pair has no tracking queue; raise KeyError if the
pair unexpectedly has no order book; reject as stale when the book's
snapshot_uid exceeds the message's update_id; otherwise put the message on the
pair's queue and count it accepted. -/
def diffRouterStep (t : Tracker) (c : RouterCounters) (ob_message : OrderBookMessage) :
    Except PyExc (Tracker × RouterCounters) :=
  let trading_pair := ob_message.trading_pair
  match dictGet? t.tracking_message_queues trading_pair with
  | none => Except.ok (t, { c with messages_rejected := c.messages_rejected + 1 })
  | some message_queue =>
    match dictGet? t.order_books trading_pair with
    | none => Except.error (PyExc.keyError trading_pair)
    | some order_book =>
      if order_book.snapshot_uid > ob_message.update_id then
        Except.ok (t, { c with messages_rejected := c.messages_rejected + 1 })
      else
        let q2 := dictSet t.tracking_message_queues trading_pair (message_queue ++ [ob_message])
        Except.ok
          ({ t with tracking_message_queues := q2 },
           { c with messages_accepted := c.messages_accepted + 1 })

/-- One iteration of the _order_book_snapshot_router loop body: drop the message
silently when the pair has no tracking queue, otherwise put it on the queue.
No staleness check and no counters exist in this loop. -/
def snapshotRouterStep (t : Tracker) (ob_message : OrderBookMessage) : Tracker :=
  match dictGet? t.tracking_message_queues ob_message.trading_pair with
  | none => t
  | some message_queue =>
    let q2 := dictSet t.tracking_message_queues ob_message.trading_pair
      (message_queue ++ [ob_message])
    { t with tracking_message_queues := q2 }

/-- PAST_DIFF_WINDOW_SIZE = 32. -/
def PAST_DIFF_WINDOW_SIZE : Nat := 32

/-- The while-loop in _track_single_book that pops from the left while the
past-diffs window is longer than PAST_DIFF_WINDOW_SIZE. -/
def trimWindow (w : List OrderBookMessage) : List OrderBookMessage :=
  if _h : PAST_DIFF_WINDOW_SIZE < w.length then trimWindow w.tail else w
termination_by w.length
decreasing_by
  simp only [List.length_tail]
  omega

/-- The loop-local state of one _track_single_book worker: its order book
reference, its past-diffs window, and its accepted counter. -/
structure WorkerState where
  order_book : OrderBook
  past_diffs_window : List OrderBookMessage
  diff_messages_accepted : Nat
  deriving DecidableEq

/-- One iteration of the _track_single_book loop body on a dequeued message:
a DIFF is applied to the book, appended to the window (trimmed to the window
size) and counted; a SNAPSHOT is restored together with the full current
contents of the window, which is left untouched; any other message type falls
through both branches and nothing happens. -/
def trackSingleBookStep (s : WorkerState) (message : OrderBookMessage) : WorkerState :=
  if message.type = OrderBookMessageType.DIFF then
    { order_book := s.order_book.apply_diffs message.bids message.asks message.update_id
      past_diffs_window := trimWindow (s.past_diffs_window ++ [message])
      diff_messages_accepted := s.diff_messages_accepted + 1 }
  else if message.type = OrderBookMessageType.SNAPSHOT then
    let book2 := s.order_book.restore_from_snapshot_and_diffs message s.past_diffs_window
    { s with order_book := book2 }
  else
    s

/-- The worker state at the start of _track_single_book: a fresh empty deque. -/
def workerInit (book : OrderBook) : WorkerState :=
  { order_book := book, past_diffs_window := [], diff_messages_accepted := 0 }

/-- Processing a whole sequence of dequeued messages through the worker loop. -/
def processMessages (s : WorkerState) (msgs : List OrderBookMessage) : WorkerState :=
  msgs.foldl trackSingleBookStep s

/-- One iteration of the _emit_trade_event_loop body on a dequeued trade message:
reject (count only) when the pair has no order book; otherwise build the
OrderBookTradeEvent exactly as the source does, with the type field computed by
the conditional `TradeType.SELL if content trade_type equals SELL.value else
TradeType.SELL`, apply it to the book, and count the message accepted. -/
def emitTradeStep (t : Tracker) (c : RouterCounters) (trade_message : OrderBookMessage) :
    Tracker × RouterCounters :=
  match dictGet? t.order_books trade_message.trading_pair with
  | none => (t, { c with messages_rejected := c.messages_rejected + 1 })
  | some order_book =>
    let event : OrderBookTradeEvent :=
      { trading_pair := trade_message.trading_pair
        timestamp := trade_message.timestamp
        price := trade_message.content_price
        amount := trade_message.content_amount
        type := if trade_message.content_trade_type = TradeType.SELL.value
                then TradeType.SELL else TradeType.SELL }
    let b2 := dictSet t.order_books trade_message.trading_pair (order_book.apply_trade event)
    ({ t with order_books := b2 },
     { c with messages_accepted := c.messages_accepted + 1 })

/-- The stop() method: for each of the six singleton task fields it checks
(emit trade event, diff listener, snapshot listener, refresh tracking, diff
router, snapshot router), if the field is not None it cancels the task and sets
the field to None.  No other field is touched. -/
def Tracker.stop (t : Tracker) : Tracker :=
  let t1 := match t.emit_trade_event_task with
    | none => t
    | some task =>
      { t with cancel_signals := t.cancel_signals ++ [task.id], emit_trade_event_task := none }
  let t2 := match t1.order_book_diff_listener_task with
    | none => t1
    | some task =>
      { t1 with cancel_signals := t1.cancel_signals ++ [task.id]
                order_book_diff_listener_task := none }
  let t3 := match t2.order_book_snapshot_listener_task with
    | none => t2
    | some task =>
      { t2 with cancel_signals := t2.cancel_signals ++ [task.id]
                order_book_snapshot_listener_task := none }
  let t4 := match t3.refresh_tracking_task with
    | none => t3
    | some task =>
      { t3 with cancel_signals := t3.cancel_signals ++ [task.id]
                refresh_tracking_task := none }
  let t5 := match t4.order_book_diff_router_task with
    | none => t4
    | some task =>
      { t4 with cancel_signals := t4.cancel_signals ++ [task.id]
                order_book_diff_router_task := none }
  match t5.order_book_snapshot_router_task with
    | none => t5
    | some task =>
      { t5 with cancel_signals := t5.cancel_signals ++ [task.id]
                order_book_snapshot_router_task := none }

/-- The ids a .cancel() pass over an optional task field appends. -/
def optIds : Option PyTask → List Nat
  | none => []
  | some task => [task.id]

/-- The trading pairs whose tracking task exists and is not done, as computed at
the top of _refresh_tracking_tasks. -/
def trackedPairs (t : Tracker) : List String :=
  (t.tracking_tasks.filter (fun kv => !kv.2.done)).map Prod.fst

/-- The body of the first for-loop of _refresh_tracking_tasks for one new
trading pair: register the directory's order book, create a fresh empty queue,
and spawn a tracking task (a fresh not-done handle). -/
def startTracking (freshIds : String → Nat)
    (available_pairs : List (String × OrderBookTrackerEntry))
    (acc : Tracker) (trading_pair : String) : Tracker :=
  match dictGet? available_pairs trading_pair with
  | none => acc
  | some entry =>
    { acc with
      order_books := dictSet acc.order_books trading_pair entry.order_book
      tracking_message_queues := dictSet acc.tracking_message_queues trading_pair []
      tracking_tasks := dictSet acc.tracking_tasks trading_pair
        { id := freshIds trading_pair, done := false } }

/-- The body of the second for-loop of _refresh_tracking_tasks for one deleted
trading pair: cancel its tracking task, then delete the task, the order book
and the message queue.  The past_diffs_windows entry is not touched, exactly as
in the source. -/
def stopTracking (acc : Tracker) (trading_pair : String) : Tracker :=
  let sigs := match dictGet? acc.tracking_tasks trading_pair with
    | some task => acc.cancel_signals ++ [task.id]
    | none => acc.cancel_signals
  { acc with
    cancel_signals := sigs
    tracking_tasks := dictDel acc.tracking_tasks trading_pair
    order_books := dictDel acc.order_books trading_pair
    tracking_message_queues := dictDel acc.tracking_message_queues trading_pair }

/-- One run of _refresh_tracking_tasks given the directory result
available_pairs (get_tracking_pairs) and a supply of fresh task ids.  Python
iterates the two difference sets in unspecified order; since each loop body
touches only its own key, we fix the linearization induced by list order. -/
def refreshTrackingTasks (t : Tracker)
    (available_pairs : List (String × OrderBookTrackerEntry))
    (freshIds : String → Nat) : Tracker :=
  let tracking_trading_pairs := trackedPairs t
  let available_trading_pairs := available_pairs.map Prod.fst
  let new_trading_pairs :=
    available_trading_pairs.filter (fun p => decide (p ∉ tracking_trading_pairs))
  let deleted_trading_pairs :=
    tracking_trading_pairs.filter (fun p => decide (p ∉ available_trading_pairs))
  let t1 := new_trading_pairs.foldl (startTracking freshIds available_pairs) t
  deleted_trading_pairs.foldl stopTracking t1

/-- The data-source attribute read by ready: _trading_pairs may be None. -/
structure OrderBookTrackerDataSource where
  trading_pairs : Option (List String)
  deriving DecidableEq

/-- The ready property: `len(trading_pairs) <= len(order_books) and
len(order_books) > 0`, where trading_pairs is `data_source._trading_pairs or []`. -/
def ready (data_source : OrderBookTrackerDataSource) (t : Tracker) : Bool :=
  let trading_pairs : List String := data_source.trading_pairs.getD []
  decide (trading_pairs.length ≤ t.order_books.length) && decide (0 < t.order_books.length)

/-- Input to one iteration of a long-running loop: either a value delivered at
the suspension point, or an exception (cancellation or failure) raised there. -/
inductive LoopInput (α : Type) where
  | recv (a : α)
  | exc (e : PyExc)

/-- Result of one loop iteration: continue with a new state, or propagate a
raised exception out of the loop, terminating the task. -/
inductive IterResult (σ : Type) where
  | next (s : σ)
  | raised (e : PyExc)

/-- The shared except structure of every loop in the file: `except
asyncio.CancelledError: raise` re-raises cancellation, and the following
`except Exception` arm logs, sleeps 5 seconds, and continues the loop with the
state variables unchanged. -/
def handleLoopExc {σ : Type} (s : σ) (e : PyExc) : IterResult σ :=
  match e with
  | PyExc.cancelledError => IterResult.raised PyExc.cancelledError
  | PyExc.keyError _ => IterResult.next s
  | PyExc.otherError => IterResult.next s

/-- One full try/except iteration of _order_book_diff_router. -/
def diffRouterIteration (t : Tracker) (c : RouterCounters)
    (input : LoopInput OrderBookMessage) : IterResult (Tracker × RouterCounters) :=
  match input with
  | LoopInput.exc e => handleLoopExc (t, c) e
  | LoopInput.recv m =>
    match diffRouterStep t c m with
    | Except.ok s => IterResult.next s
    | Except.error e => handleLoopExc (t, c) e

/-- One full try/except iteration of _order_book_snapshot_router. -/
def snapshotRouterIteration (t : Tracker) (input : LoopInput OrderBookMessage) :
    IterResult Tracker :=
  match input with
  | LoopInput.exc e => handleLoopExc t e
  | LoopInput.recv m => IterResult.next (snapshotRouterStep t m)

/-- One full try/except iteration of _track_single_book. -/
def trackSingleBookIteration (s : WorkerState) (input : LoopInput OrderBookMessage) :
    IterResult WorkerState :=
  match input with
  | LoopInput.exc e => handleLoopExc s e
  | LoopInput.recv m => IterResult.next (trackSingleBookStep s m)

/-- One full try/except iteration of _emit_trade_event_loop. -/
def emitTradeIteration (t : Tracker) (c : RouterCounters)
    (input : LoopInput OrderBookMessage) : IterResult (Tracker × RouterCounters) :=
  match input with
  | LoopInput.exc e => handleLoopExc (t, c) e
  | LoopInput.recv m => IterResult.next (emitTradeStep t c m)

/-- One full try/except iteration of _refresh_tracking_loop. -/
def refreshTrackingIteration (t : Tracker) (freshIds : String → Nat)
    (input : LoopInput (List (String × OrderBookTrackerEntry))) : IterResult Tracker :=
  match input with
  | LoopInput.exc e => handleLoopExc t e
  | LoopInput.recv available_pairs =>
    IterResult.next (refreshTrackingTasks t available_pairs freshIds)

section DictLemmas

variable {α : Type}

/-- Reading back through an assignment. -/
theorem dictGet_dictSet (d : List (String × α)) (k q : String) (v : α) :
    dictGet? (dictSet d k v) q = if q = k then some v else dictGet? d q := by
  induction d with
  | nil =>
    by_cases h : q = k
    · subst h; simp [dictSet, dictGet?]
    · have h2 : ¬ k = q := fun h2 => h h2.symm
      simp [dictSet, dictGet?, h, h2]
  | cons kv rest ih =>
    obtain ⟨k2, v2⟩ := kv
    by_cases h2 : k2 = k
    · subst h2
      by_cases h : q = k2
      · subst h; simp [dictSet, dictGet?]
      · have h3 : ¬ k2 = q := fun h3 => h h3.symm
        simp [dictSet, dictGet?, h, h3]
    · by_cases h3 : k2 = q
      · subst h3
        simp [dictSet, dictGet?, h2]
      · simp [dictSet, dictGet?, h2, h3, ih]

/-- Reading through a deletion. -/
theorem dictGet_dictDel (d : List (String × α)) (k q : String) :
    dictGet? (dictDel d k) q = if q = k then none else dictGet? d q := by
  induction d with
  | nil => by_cases h : q = k <;> simp [dictDel, dictGet?, h]
  | cons kv rest ih =>
    obtain ⟨k2, v2⟩ := kv
    by_cases h2 : k2 = k
    · subst h2
      by_cases h : q = k2
      · subst h; simp [dictDel, dictGet?, ih]
      · have h3 : ¬ k2 = q := fun h3 => h h3.symm
        simp [dictDel, dictGet?, h, h3, ih]
    · by_cases h3 : k2 = q
      · subst h3
        simp [dictDel, dictGet?, h2]
      · simp [dictDel, dictGet?, h2, h3, ih]

end DictLemmas

section TrimLemmas

/-- trimWindow leaves a window within capacity unchanged. -/
theorem trimWindow_of_le (w : List OrderBookMessage)
    (h : w.length ≤ PAST_DIFF_WINDOW_SIZE) : trimWindow w = w := by
  unfold trimWindow
  rw [dif_neg]
  omega

/-- trimWindow pops exactly one element from a window one over capacity. -/
theorem trimWindow_of_succ (w : List OrderBookMessage)
    (h : w.length = PAST_DIFF_WINDOW_SIZE + 1) : trimWindow w = w.tail := by
  unfold trimWindow
  rw [dif_pos (by omega)]
  exact trimWindow_of_le w.tail (by simp [List.length_tail]; omega)

/-- On any window at most one over capacity, trimWindow keeps the newest
PAST_DIFF_WINDOW_SIZE entries. -/
theorem trimWindow_eq_drop (w : List OrderBookMessage)
    (h : w.length ≤ PAST_DIFF_WINDOW_SIZE + 1) :
    trimWindow w = w.drop (w.length - PAST_DIFF_WINDOW_SIZE) := by
  by_cases h32 : w.length ≤ PAST_DIFF_WINDOW_SIZE
  · rw [trimWindow_of_le w h32]
    have hz : w.length - PAST_DIFF_WINDOW_SIZE = 0 := by omega
    simp [hz]
  · have h33 : w.length = PAST_DIFF_WINDOW_SIZE + 1 := by omega
    rw [trimWindow_of_succ w h33, h33]
    simp

end TrimLemmas

/-- A concrete order book at baseline update id 5. -/
def exBook : OrderBook := { snapshot_uid := 5, applied := [] }

/-- A concrete diff message whose update_id equals the book's snapshot_uid. -/
def exDiffMsg : OrderBookMessage :=
  { type := OrderBookMessageType.DIFF, trading_pair := "BTC-USDT", update_id := 5
    timestamp := 0, bids := [(100, 1)], asks := [(101, 2)]
    content_price := 0, content_amount := 0, content_trade_type := 0 }

/-- A concrete stale diff message (update_id below the book's snapshot_uid). -/
def exStaleMsg : OrderBookMessage := { exDiffMsg with update_id := 3 }

/-- A concrete snapshot message. -/
def exSnapshotMsg : OrderBookMessage :=
  { exDiffMsg with type := OrderBookMessageType.SNAPSHOT, update_id := 9 }

/-- A concrete snapshot message older than the book's baseline. -/
def exStaleSnapshotMsg : OrderBookMessage :=
  { exSnapshotMsg with update_id := 3 }

/-- A concrete trade message carrying the BUY flag value. -/
def exTradeMsg : OrderBookMessage :=
  { type := OrderBookMessageType.TRADE, trading_pair := "BTC-USDT", update_id := 0
    timestamp := 7, bids := [], asks := [], content_price := 100, content_amount := 2
    content_trade_type := 1 }

/-- A tracker with no tracked instruments and no running tasks. -/
def emptyTracker : Tracker :=
  { tracking_tasks := [], order_books := [], tracking_message_queues := []
    past_diffs_windows := []
    order_book_diff_listener_task := none, order_book_trade_listener_task := none
    order_book_snapshot_listener_task := none, order_book_diff_router_task := none
    order_book_snapshot_router_task := none, emit_trade_event_task := none
    refresh_tracking_task := none, cancel_signals := [] }

/-- A tracker tracking the single pair BTC-USDT with an empty inbound queue. -/
def exTracker : Tracker :=
  { emptyTracker with
    tracking_tasks := [("BTC-USDT", { id := 0, done := false })]
    order_books := [("BTC-USDT", exBook)]
    tracking_message_queues := [("BTC-USDT", [])]
    past_diffs_windows := [("BTC-USDT", [])] }

/-- Zeroed loop counters. -/
def exCounters : RouterCounters := { messages_accepted := 0, messages_rejected := 0 }

/-- A concrete worker state with one buffered diff. -/
def exWorker : WorkerState :=
  { order_book := exBook, past_diffs_window := [exStaleMsg], diff_messages_accepted := 3 }

/-- A data source reporting no desired trading pairs. -/
def exDataSourceNone : OrderBookTrackerDataSource := { trading_pairs := none }

/-- C1 counterexample: a diff whose update_id equals the book's snapshot_uid is
not rejected as the claim states; the diff router forwards it onto the pair's
inbound queue and increments the accepted counter, leaving the rejected counter
untouched. -/
theorem C1_claim_counterexample :
    exDiffMsg.update_id ≤ exBook.snapshot_uid ∧
    dictGet? exTracker.tracking_message_queues exDiffMsg.trading_pair = some [] ∧
    dictGet? exTracker.order_books exDiffMsg.trading_pair = some exBook ∧
    diffRouterStep exTracker exCounters exDiffMsg =
      Except.ok
        ({ exTracker with tracking_message_queues := [("BTC-USDT", [exDiffMsg])] },
         { messages_accepted := 1, messages_rejected := 0 }) :=
  ⟨by decide, rfl, rfl, rfl⟩

/-- C1 (amended): for a tracked instrument, the diff router rejects a message
iff the book's snapshot_uid strictly exceeds its update_id — rejection leaves
the tracker (hence every queue and Book State) unchanged and increments only
the rejected counter — while a message with update_id at least snapshot_uid
(equality included) is appended to the instrument's inbound queue and counted
as accepted. -/
theorem C1_diff_router_staleness (t : Tracker) (c : RouterCounters)
    (m : OrderBookMessage) (q : List OrderBookMessage) (book : OrderBook)
    (hq : dictGet? t.tracking_message_queues m.trading_pair = some q)
    (hb : dictGet? t.order_books m.trading_pair = some book) :
    (book.snapshot_uid > m.update_id →
      diffRouterStep t c m =
        Except.ok (t, { c with messages_rejected := c.messages_rejected + 1 })) ∧
    (book.snapshot_uid ≤ m.update_id →
      diffRouterStep t c m =
        Except.ok ({ t with tracking_message_queues := dictSet t.tracking_message_queues m.trading_pair (q ++ [m]) }, { c with messages_accepted := c.messages_accepted + 1 })) := by
  constructor <;> intro h
  · simp [diffRouterStep, hq, hb, h]
  · simp [diffRouterStep, hq, hb, not_lt.mpr h]

/-- C1 witness: the amended theorem applied to a concrete stale diff, which is
rejected with the tracker unchanged. -/
theorem C1_diff_router_staleness_witness :
    diffRouterStep exTracker exCounters exStaleMsg =
      Except.ok (exTracker, { messages_accepted := 0, messages_rejected := 1 }) :=
  (C1_diff_router_staleness exTracker exCounters exStaleMsg [] exBook rfl rfl).1 (by decide)

/-- C4: for a tracked instrument, the trade emitter applies via apply_trade an
event whose type field is TradeType.SELL whatever the message's trade_type flag
is, and increments the accepted counter. -/
theorem C4_trade_event_always_sell (t : Tracker) (c : RouterCounters)
    (m : OrderBookMessage) (book : OrderBook)
    (hb : dictGet? t.order_books m.trading_pair = some book) :
    emitTradeStep t c m =
      ({ t with order_books := dictSet t.order_books m.trading_pair (book.apply_trade { trading_pair := m.trading_pair, timestamp := m.timestamp, price := m.content_price, amount := m.content_amount, type := TradeType.SELL }) },
       { c with messages_accepted := c.messages_accepted + 1 }) := by
  simp [emitTradeStep, hb]

/-- C4 witness: a trade message carrying the BUY flag value still produces a
SELL-typed trade event. -/
theorem C4_trade_event_always_sell_witness :
    emitTradeStep exTracker exCounters exTradeMsg =
      ({ exTracker with order_books := [("BTC-USDT", { snapshot_uid := 5, applied := [BookEvent.applyTrade { trading_pair := "BTC-USDT", timestamp := 7, price := 100, amount := 2, type := TradeType.SELL }] })] },
       { messages_accepted := 1, messages_rejected := 0 }) :=
  C4_trade_event_always_sell exTracker exCounters exTradeMsg exBook rfl

/-- C5: on a SNAPSHOT message the worker invokes restore_from_snapshot_and_diffs
with the entire current contents of its past-diffs window, in arrival order,
and removes nothing from the window; the accepted counter is untouched too. -/
theorem C5_snapshot_restores_with_window (s : WorkerState) (m : OrderBookMessage)
    (h : m.type = OrderBookMessageType.SNAPSHOT) :
    (trackSingleBookStep s m).order_book.applied =
      s.order_book.applied ++ [BookEvent.restoreFromSnapshotAndDiffs m s.past_diffs_window] ∧
    (trackSingleBookStep s m).past_diffs_window = s.past_diffs_window ∧
    (trackSingleBookStep s m).diff_messages_accepted = s.diff_messages_accepted := by
  refine ⟨?_, ?_, ?_⟩ <;>
    simp [trackSingleBookStep, h, OrderBook.restore_from_snapshot_and_diffs]

/-- C5 witness: the theorem applied to a concrete snapshot over a one-entry
window. -/
theorem C5_snapshot_restores_with_window_witness :
    (trackSingleBookStep exWorker exSnapshotMsg).order_book.applied =
      [BookEvent.restoreFromSnapshotAndDiffs exSnapshotMsg [exStaleMsg]] ∧
    (trackSingleBookStep exWorker exSnapshotMsg).past_diffs_window = [exStaleMsg] ∧
    (trackSingleBookStep exWorker exSnapshotMsg).diff_messages_accepted = 3 :=
  C5_snapshot_restores_with_window exWorker exSnapshotMsg rfl

/-- C7: ready is true iff the number of tracked books is at least the number of
trading pairs the data source reports and at least one book exists; it is false
whenever order_books is empty, and true with at least one book when the source
reports no pairs. -/
theorem C7_ready_characterization (data_source : OrderBookTrackerDataSource)
    (t : Tracker) :
    (ready data_source t = true ↔
      ((data_source.trading_pairs.getD []).length ≤ t.order_books.length ∧
        0 < t.order_books.length)) ∧
    (t.order_books = [] → ready data_source t = false) ∧
    ((data_source.trading_pairs = none ∨ data_source.trading_pairs = some []) →
      0 < t.order_books.length → ready data_source t = true) := by
  refine ⟨?_, ?_, ?_⟩
  · simp [ready]
  · intro h; simp [ready, h]
  · rintro (h | h) hpos <;> simp [ready, h, hpos]

/-- C7 witness: a data source reporting no pairs and a tracker with one book. -/
theorem C7_ready_characterization_witness :
    ready exDataSourceNone exTracker = true :=
  (C7_ready_characterization exDataSourceNone exTracker).2.2 (Or.inl rfl) (by decide)

/-- C8: the snapshot router forwards a snapshot message iff its pair has a
registered inbound queue — with no condition whatsoever on update_id or any
book's snapshot_uid — and drops messages for unknown pairs silently, leaving
the whole tracker state unchanged (this loop keeps no counters at all). -/
theorem C8_snapshot_router_forwarding (t : Tracker) (m : OrderBookMessage) :
    (dictGet? t.tracking_message_queues m.trading_pair = none →
      snapshotRouterStep t m = t) ∧
    (∀ q, dictGet? t.tracking_message_queues m.trading_pair = some q →
      snapshotRouterStep t m = { t with tracking_message_queues := dictSet t.tracking_message_queues m.trading_pair (q ++ [m]) }) := by
  constructor
  · intro h; simp [snapshotRouterStep, h]
  · intro q h; simp [snapshotRouterStep, h]

/-- C8 witness: a snapshot older than the book's baseline is still forwarded. -/
theorem C8_snapshot_router_forwarding_witness :
    snapshotRouterStep exTracker exStaleSnapshotMsg =
      { exTracker with tracking_message_queues := [("BTC-USDT", [exStaleSnapshotMsg])] } :=
  (C8_snapshot_router_forwarding exTracker exStaleSnapshotMsg).2 [] rfl

/-- C9: in each of the five loops (diff router, snapshot router, per-instrument
worker, trade emitter, refresher), a CancelledError raised at the suspension
point propagates out of the iteration, terminating the task, and is never
handled by the log-and-pause recovery arm; any other exception takes the
recovery arm, continuing the loop with the state unchanged. -/
theorem C9_cancellation_reraised :
    (∀ (t : Tracker) (c : RouterCounters),
      diffRouterIteration t c (LoopInput.exc PyExc.cancelledError) =
        IterResult.raised PyExc.cancelledError) ∧
    (∀ (t : Tracker),
      snapshotRouterIteration t (LoopInput.exc PyExc.cancelledError) =
        IterResult.raised PyExc.cancelledError) ∧
    (∀ (s : WorkerState),
      trackSingleBookIteration s (LoopInput.exc PyExc.cancelledError) =
        IterResult.raised PyExc.cancelledError) ∧
    (∀ (t : Tracker) (c : RouterCounters),
      emitTradeIteration t c (LoopInput.exc PyExc.cancelledError) =
        IterResult.raised PyExc.cancelledError) ∧
    (∀ (t : Tracker) (f : String → Nat),
      refreshTrackingIteration t f (LoopInput.exc PyExc.cancelledError) =
        IterResult.raised PyExc.cancelledError) ∧
    (∀ (t : Tracker) (c : RouterCounters),
      diffRouterIteration t c (LoopInput.exc PyExc.otherError) =
        IterResult.next (t, c)) ∧
    (∀ (t : Tracker),
      snapshotRouterIteration t (LoopInput.exc PyExc.otherError) = IterResult.next t) ∧
    (∀ (s : WorkerState),
      trackSingleBookIteration s (LoopInput.exc PyExc.otherError) = IterResult.next s) ∧
    (∀ (t : Tracker) (c : RouterCounters),
      emitTradeIteration t c (LoopInput.exc PyExc.otherError) =
        IterResult.next (t, c)) ∧
    (∀ (t : Tracker) (f : String → Nat),
      refreshTrackingIteration t f (LoopInput.exc PyExc.otherError) =
        IterResult.next t) :=
  ⟨fun _ _ => rfl, fun _ => rfl, fun _ => rfl, fun _ _ => rfl, fun _ _ => rfl,
   fun _ _ => rfl, fun _ => rfl, fun _ => rfl, fun _ _ => rfl, fun _ _ => rfl⟩

/-- C10: a message that is neither a DIFF nor a SNAPSHOT leaves the worker state
(book, window, counter) exactly as it was, and the iteration continues the loop
without raising anything. -/
theorem C10_non_diff_non_snapshot_noop (s : WorkerState) (m : OrderBookMessage)
    (h1 : m.type ≠ OrderBookMessageType.DIFF)
    (h2 : m.type ≠ OrderBookMessageType.SNAPSHOT) :
    trackSingleBookStep s m = s ∧
    trackSingleBookIteration s (LoopInput.recv m) = IterResult.next s := by
  have hs : trackSingleBookStep s m = s := by
    simp [trackSingleBookStep, h1, h2]
  exact ⟨hs, by simp [trackSingleBookIteration, hs]⟩

/-- C10 witness: a TRADE message dequeued by the worker changes nothing. -/
theorem C10_non_diff_non_snapshot_noop_witness :
    trackSingleBookStep exWorker exTradeMsg = exWorker ∧
    trackSingleBookIteration exWorker (LoopInput.recv exTradeMsg) =
      IterResult.next exWorker :=
  C10_non_diff_non_snapshot_noop exWorker exTradeMsg (by decide) (by decide)

/-- A tracker with all six stoppable tasks running, a trade listener, and one
tracked pair whose worker task has id 0. -/
def exStopTracker : Tracker :=
  { exTracker with
    emit_trade_event_task := some { id := 1, done := false }
    order_book_diff_listener_task := some { id := 2, done := false }
    order_book_snapshot_listener_task := some { id := 3, done := false }
    order_book_diff_router_task := some { id := 4, done := false }
    order_book_snapshot_router_task := some { id := 5, done := false }
    order_book_trade_listener_task := some { id := 6, done := false }
    refresh_tracking_task := some { id := 8, done := false } }

/-- C2 counterexample: stop() cancels the six singleton tasks it handles, but
the per-instrument worker task (id 0) gets no cancel signal and stays in
tracking_tasks, and the trade listener task (id 6) is not cancelled either —
so not every owned task is cancelled and workers can keep mutating Book State. -/
theorem C2_claim_counterexample :
    (exStopTracker.stop).tracking_tasks = [("BTC-USDT", { id := 0, done := false })] ∧
    (0 : Nat) ∉ (exStopTracker.stop).cancel_signals ∧
    (exStopTracker.stop).order_book_trade_listener_task =
      some { id := 6, done := false } ∧
    (6 : Nat) ∉ (exStopTracker.stop).cancel_signals ∧
    (exStopTracker.stop).cancel_signals = [1, 2, 3, 8, 4, 5] := by
  decide

/-- C2 (amended): stop() cancels exactly the six singleton tasks it checks —
trade emitter, diff listener, snapshot listener, refresher, diff router,
snapshot router, in that source order — clearing each field; if a field is
already None it is skipped, so a second stop() is a no-op.  The per-instrument
worker tasks in tracking_tasks and the trade listener task are never cancelled
by stop(), and every other tracker field is unchanged. -/
theorem C2_stop_behavior (t : Tracker) :
    t.stop.emit_trade_event_task = none ∧
    t.stop.order_book_diff_listener_task = none ∧
    t.stop.order_book_snapshot_listener_task = none ∧
    t.stop.refresh_tracking_task = none ∧
    t.stop.order_book_diff_router_task = none ∧
    t.stop.order_book_snapshot_router_task = none ∧
    t.stop.cancel_signals =
      t.cancel_signals ++ optIds t.emit_trade_event_task ++
        optIds t.order_book_diff_listener_task ++
        optIds t.order_book_snapshot_listener_task ++
        optIds t.refresh_tracking_task ++
        optIds t.order_book_diff_router_task ++
        optIds t.order_book_snapshot_router_task ∧
    t.stop.tracking_tasks = t.tracking_tasks ∧
    t.stop.order_book_trade_listener_task = t.order_book_trade_listener_task ∧
    t.stop.order_books = t.order_books ∧
    t.stop.tracking_message_queues = t.tracking_message_queues ∧
    t.stop.past_diffs_windows = t.past_diffs_windows ∧
    t.stop.stop = t.stop := by
  obtain ⟨tt, ob, q, w, dl, tl, sl, dr, sr, et, rt, cs⟩ := t
  cases et <;> cases dl <;> cases sl <;> cases rt <;> cases dr <;> cases sr <;>
    simp [Tracker.stop, optIds]

/-- A DIFF step of the worker trims the appended window. -/
theorem trackSingleBookStep_diff_window (s : WorkerState) (m : OrderBookMessage)
    (h : m.type = OrderBookMessageType.DIFF) :
    (trackSingleBookStep s m).past_diffs_window =
      trimWindow (s.past_diffs_window ++ [m]) := by
  simp [trackSingleBookStep, h]

/-- Through any sequence of DIFF messages the worker's window is always the
newest PAST_DIFF_WINDOW_SIZE entries of everything appended so far. -/
theorem processMessages_window (ms : List OrderBookMessage) (s : WorkerState)
    (hd : ∀ m ∈ ms, m.type = OrderBookMessageType.DIFF)
    (hw : s.past_diffs_window.length ≤ PAST_DIFF_WINDOW_SIZE) :
    (processMessages s ms).past_diffs_window =
      (s.past_diffs_window ++ ms).drop
        ((s.past_diffs_window.length + ms.length) - PAST_DIFF_WINDOW_SIZE) := by
  induction ms generalizing s with
  | nil =>
    have hz : s.past_diffs_window.length - PAST_DIFF_WINDOW_SIZE = 0 := by omega
    simp [processMessages, hz]
  | cons m rest ih =>
    have hm : m.type = OrderBookMessageType.DIFF := hd m (List.mem_cons_self m rest)
    have hrest : ∀ x ∈ rest, x.type = OrderBookMessageType.DIFF :=
      fun x hx => hd x (List.mem_cons_of_mem m hx)
    have hstep : (trackSingleBookStep s m).past_diffs_window =
        (s.past_diffs_window ++ [m]).drop
          ((s.past_diffs_window.length + 1) - PAST_DIFF_WINDOW_SIZE) := by
      rw [trackSingleBookStep_diff_window s m hm,
        trimWindow_eq_drop _
          (by rw [List.length_append, List.length_singleton]; omega)]
      rw [List.length_append, List.length_singleton]
    have hlen : (trackSingleBookStep s m).past_diffs_window.length ≤
        PAST_DIFF_WINDOW_SIZE := by
      rw [hstep, List.length_drop, List.length_append, List.length_singleton]
      omega
    have hfold : processMessages s (m :: rest) =
        processMessages (trackSingleBookStep s m) rest := rfl
    rw [hfold, ih (trackSingleBookStep s m) hrest hlen, hstep]
    rw [← List.drop_append_of_le_length
      (by rw [List.length_append, List.length_singleton]; omega)]
    rw [List.drop_drop, List.length_drop]
    have hsplit : s.past_diffs_window ++ m :: rest =
        (s.past_diffs_window ++ [m]) ++ rest := by simp
    rw [hsplit]
    congr 1
    rw [List.length_append, List.length_singleton, List.length_cons]
    omega

/-- C6: starting from the fresh empty window of a new worker, after processing
any sequence of DIFF messages the window equals the suffix of the most recently
processed PAST_DIFF_WINDOW_SIZE messages (the oldest is evicted on each
overflow), its length never exceeds PAST_DIFF_WINDOW_SIZE, and once more than
PAST_DIFF_WINDOW_SIZE diffs have been processed it holds exactly that many. -/
theorem C6_bounded_window (book : OrderBook) (ms : List OrderBookMessage)
    (hd : ∀ m ∈ ms, m.type = OrderBookMessageType.DIFF) :
    (processMessages (workerInit book) ms).past_diffs_window =
      ms.drop (ms.length - PAST_DIFF_WINDOW_SIZE) ∧
    (processMessages (workerInit book) ms).past_diffs_window.length ≤
      PAST_DIFF_WINDOW_SIZE ∧
    (PAST_DIFF_WINDOW_SIZE < ms.length →
      (processMessages (workerInit book) ms).past_diffs_window.length =
        PAST_DIFF_WINDOW_SIZE) := by
  have h := processMessages_window ms (workerInit book) hd
    (by simp [workerInit, PAST_DIFF_WINDOW_SIZE])
  rw [show (workerInit book).past_diffs_window = [] from rfl] at h
  simp only [List.nil_append, List.length_nil, Nat.zero_add] at h
  refine ⟨h, ?_, ?_⟩
  · rw [h, List.length_drop]
    omega
  · intro hgt
    rw [h, List.length_drop]
    omega

/-- A sequence of 35 distinct diff messages. -/
def exDiffSeq : List OrderBookMessage :=
  (List.range 35).map (fun i => { exDiffMsg with update_id := (i : Int) })

/-- C6 witness: after 35 diffs the window is exactly the last 32 of them. -/
theorem C6_bounded_window_witness :
    (processMessages (workerInit exBook) exDiffSeq).past_diffs_window =
      exDiffSeq.drop 3 ∧
    (processMessages (workerInit exBook) exDiffSeq).past_diffs_window.length ≤
      PAST_DIFF_WINDOW_SIZE ∧
    (PAST_DIFF_WINDOW_SIZE < exDiffSeq.length →
      (processMessages (workerInit exBook) exDiffSeq).past_diffs_window.length =
        PAST_DIFF_WINDOW_SIZE) :=
  C6_bounded_window exBook exDiffSeq
    (by
      intro m hm
      simp only [exDiffSeq, List.mem_map] at hm
      obtain ⟨i, _, rfl⟩ := hm
      rfl)

section RefreshLemmas

/-- A successful dict lookup implies the key is among the dict's keys. -/
theorem dictGet_mem_keys {α : Type} (d : List (String × α)) (p : String) (v : α)
    (h : dictGet? d p = some v) : p ∈ d.map Prod.fst := by
  induction d with
  | nil => simp [dictGet?] at h
  | cons kv rest ih =>
    obtain ⟨k2, v2⟩ := kv
    by_cases h2 : k2 = p
    · subst h2; simp
    · simp only [dictGet?, if_neg h2] at h
      simp [ih h]

/-- A key bound to a not-done task is among the live keys of a task map. -/
theorem mem_liveKeys (l : List (String × PyTask)) (p : String) (task : PyTask)
    (h : dictGet? l p = some task) (hdone : task.done = false) :
    p ∈ (l.filter (fun kv => !kv.2.done)).map Prod.fst := by
  induction l with
  | nil => simp [dictGet?] at h
  | cons kv rest ih =>
    obtain ⟨k2, v2⟩ := kv
    by_cases h2 : k2 = p
    · subst h2
      simp only [dictGet?, if_pos rfl] at h
      cases h
      simp [List.filter_cons, hdone]
    · simp only [dictGet?, if_neg h2] at h
      have hmem := ih h
      have hsub : List.filter (fun kv => !kv.2.done) rest ⊆
          List.filter (fun kv => !kv.2.done) ((k2, v2) :: rest) := by
        intro x hx
        rw [List.mem_filter] at hx ⊢
        exact ⟨List.mem_cons_of_mem _ hx.1, hx.2⟩
      obtain ⟨x, hx, he⟩ := List.mem_map.mp hmem
      exact List.mem_map.mpr ⟨x, hsub hx, he⟩

/-- A pair whose tracking task exists and is not done is currently tracked. -/
theorem mem_trackedPairs (t : Tracker) (p : String) (task : PyTask)
    (h : dictGet? t.tracking_tasks p = some task) (hdone : task.done = false) :
    p ∈ trackedPairs t :=
  mem_liveKeys t.tracking_tasks p task h hdone

/-- startTracking changes neither the past-diffs windows nor the cancel log. -/
theorem startTracking_untouched (f : String → Nat)
    (a : List (String × OrderBookTrackerEntry)) (acc : Tracker) (p : String) :
    (startTracking f a acc p).past_diffs_windows = acc.past_diffs_windows ∧
    (startTracking f a acc p).cancel_signals = acc.cancel_signals := by
  unfold startTracking
  split <;> exact ⟨rfl, rfl⟩

/-- startTracking leaves every other key's bindings alone. -/
theorem startTracking_lookup_ne (f : String → Nat)
    (a : List (String × OrderBookTrackerEntry)) (acc : Tracker) (p q : String)
    (h : q ≠ p) :
    dictGet? (startTracking f a acc p).order_books q = dictGet? acc.order_books q ∧
    dictGet? (startTracking f a acc p).tracking_message_queues q =
      dictGet? acc.tracking_message_queues q ∧
    dictGet? (startTracking f a acc p).tracking_tasks q =
      dictGet? acc.tracking_tasks q := by
  unfold startTracking
  split
  · exact ⟨rfl, rfl, rfl⟩
  · refine ⟨?_, ?_, ?_⟩ <;> simp [dictGet_dictSet, h]

/-- startTracking installs the directory's book, a fresh queue and a live task
for its own key. -/
theorem startTracking_lookup_self (f : String → Nat)
    (a : List (String × OrderBookTrackerEntry)) (acc : Tracker) (p : String)
    (entry : OrderBookTrackerEntry) (h : dictGet? a p = some entry) :
    dictGet? (startTracking f a acc p).order_books p = some entry.order_book ∧
    dictGet? (startTracking f a acc p).tracking_message_queues p = some [] ∧
    dictGet? (startTracking f a acc p).tracking_tasks p =
      some { id := f p, done := false } := by
  unfold startTracking
  rw [h]
  refine ⟨?_, ?_, ?_⟩ <;> simp [dictGet_dictSet]

/-- Folding startTracking changes neither the windows nor the cancel log. -/
theorem foldl_startTracking_untouched (l : List String) (f : String → Nat)
    (a : List (String × OrderBookTrackerEntry)) :
    ∀ acc : Tracker,
      (l.foldl (startTracking f a) acc).past_diffs_windows = acc.past_diffs_windows ∧
      (l.foldl (startTracking f a) acc).cancel_signals = acc.cancel_signals := by
  induction l with
  | nil => intro acc; exact ⟨rfl, rfl⟩
  | cons p rest ih =>
    intro acc
    rw [List.foldl_cons]
    have h1 := startTracking_untouched f a acc p
    have h2 := ih (startTracking f a acc p)
    exact ⟨h2.1.trans h1.1, h2.2.trans h1.2⟩

/-- Folding startTracking over keys not containing q leaves q's bindings alone. -/
theorem foldl_startTracking_lookup_not_mem (l : List String) (f : String → Nat)
    (a : List (String × OrderBookTrackerEntry)) :
    ∀ (acc : Tracker) (q : String), q ∉ l →
      dictGet? (l.foldl (startTracking f a) acc).order_books q =
        dictGet? acc.order_books q ∧
      dictGet? (l.foldl (startTracking f a) acc).tracking_message_queues q =
        dictGet? acc.tracking_message_queues q ∧
      dictGet? (l.foldl (startTracking f a) acc).tracking_tasks q =
        dictGet? acc.tracking_tasks q := by
  induction l with
  | nil => intro acc q _; exact ⟨rfl, rfl, rfl⟩
  | cons p rest ih =>
    intro acc q h
    have hqp : q ≠ p := fun he => h (he ▸ List.mem_cons_self p rest)
    have hqr : q ∉ rest := fun he => h (List.mem_cons_of_mem p he)
    rw [List.foldl_cons]
    have h1 := startTracking_lookup_ne f a acc p q hqp
    have h2 := ih (startTracking f a acc p) q hqr
    exact ⟨h2.1.trans h1.1, h2.2.1.trans h1.2.1, h2.2.2.trans h1.2.2⟩

/-- Folding startTracking over a nodup key list registers book, queue and task
for each key found in the directory. -/
theorem foldl_startTracking_lookup_mem (l : List String) (f : String → Nat)
    (a : List (String × OrderBookTrackerEntry)) (q : String)
    (entry : OrderBookTrackerEntry) (ha : dictGet? a q = some entry) :
    ∀ acc : Tracker, q ∈ l → l.Nodup →
      dictGet? (l.foldl (startTracking f a) acc).order_books q =
        some entry.order_book ∧
      dictGet? (l.foldl (startTracking f a) acc).tracking_message_queues q =
        some [] ∧
      dictGet? (l.foldl (startTracking f a) acc).tracking_tasks q =
        some { id := f q, done := false } := by
  induction l with
  | nil => intro acc hmem _; cases hmem
  | cons p rest ih =>
    intro acc hmem hnd
    rw [List.foldl_cons]
    by_cases hqp : q = p
    · subst hqp
      have hqr : q ∉ rest := (List.nodup_cons.mp hnd).1
      have h1 := startTracking_lookup_self f a acc q entry ha
      have h2 := foldl_startTracking_lookup_not_mem rest f a
        (startTracking f a acc q) q hqr
      exact ⟨h2.1.trans h1.1, h2.2.1.trans h1.2.1, h2.2.2.trans h1.2.2⟩
    · rcases List.mem_cons.mp hmem with he | hmem2
      · exact absurd he hqp
      · exact ih (startTracking f a acc p) hmem2 (List.nodup_cons.mp hnd).2

/-- stopTracking never touches the past-diffs windows. -/
theorem stopTracking_untouched (acc : Tracker) (p : String) :
    (stopTracking acc p).past_diffs_windows = acc.past_diffs_windows := rfl

/-- stopTracking leaves every other key's bindings alone. -/
theorem stopTracking_lookup_ne (acc : Tracker) (p q : String) (h : q ≠ p) :
    dictGet? (stopTracking acc p).tracking_tasks q = dictGet? acc.tracking_tasks q ∧
    dictGet? (stopTracking acc p).order_books q = dictGet? acc.order_books q ∧
    dictGet? (stopTracking acc p).tracking_message_queues q =
      dictGet? acc.tracking_message_queues q := by
  refine ⟨?_, ?_, ?_⟩ <;> simp [stopTracking, dictGet_dictDel, h]

/-- stopTracking removes its own key from all three maps it touches. -/
theorem stopTracking_lookup_self (acc : Tracker) (p : String) :
    dictGet? (stopTracking acc p).tracking_tasks p = none ∧
    dictGet? (stopTracking acc p).order_books p = none ∧
    dictGet? (stopTracking acc p).tracking_message_queues p = none := by
  refine ⟨?_, ?_, ?_⟩ <;> simp [stopTracking, dictGet_dictDel]

/-- stopTracking only appends to the cancel log. -/
theorem stopTracking_signals_mono (acc : Tracker) (p : String) (x : Nat)
    (h : x ∈ acc.cancel_signals) : x ∈ (stopTracking acc p).cancel_signals := by
  rcases hg : dictGet? acc.tracking_tasks p with _ | task <;>
    simp [stopTracking, hg, h]

/-- stopTracking cancels the task bound to its key. -/
theorem stopTracking_cancel_signal (acc : Tracker) (p : String) (task : PyTask)
    (h : dictGet? acc.tracking_tasks p = some task) :
    (stopTracking acc p).cancel_signals = acc.cancel_signals ++ [task.id] := by
  simp [stopTracking, h]

/-- Folding stopTracking never touches the past-diffs windows. -/
theorem foldl_stopTracking_untouched (l : List String) :
    ∀ acc : Tracker,
      (l.foldl stopTracking acc).past_diffs_windows = acc.past_diffs_windows := by
  induction l with
  | nil => intro acc; rfl
  | cons p rest ih =>
    intro acc
    rw [List.foldl_cons, ih, stopTracking_untouched]

/-- Folding stopTracking only grows the cancel log. -/
theorem foldl_stopTracking_signals_mono (l : List String) :
    ∀ (acc : Tracker) (x : Nat), x ∈ acc.cancel_signals →
      x ∈ (l.foldl stopTracking acc).cancel_signals := by
  induction l with
  | nil => intro acc x h; exact h
  | cons p rest ih =>
    intro acc x h
    rw [List.foldl_cons]
    exact ih _ x (stopTracking_signals_mono acc p x h)

/-- Folding stopTracking over keys not containing q leaves q's bindings alone. -/
theorem foldl_stopTracking_lookup_not_mem (l : List String) :
    ∀ (acc : Tracker) (q : String), q ∉ l →
      dictGet? (l.foldl stopTracking acc).tracking_tasks q =
        dictGet? acc.tracking_tasks q ∧
      dictGet? (l.foldl stopTracking acc).order_books q =
        dictGet? acc.order_books q ∧
      dictGet? (l.foldl stopTracking acc).tracking_message_queues q =
        dictGet? acc.tracking_message_queues q := by
  induction l with
  | nil => intro acc q _; exact ⟨rfl, rfl, rfl⟩
  | cons p rest ih =>
    intro acc q h
    have hqp : q ≠ p := fun he => h (he ▸ List.mem_cons_self p rest)
    have hqr : q ∉ rest := fun he => h (List.mem_cons_of_mem p he)
    rw [List.foldl_cons]
    have h1 := stopTracking_lookup_ne acc p q hqp
    have h2 := ih (stopTracking acc p) q hqr
    exact ⟨h2.1.trans h1.1, h2.2.1.trans h1.2.1, h2.2.2.trans h1.2.2⟩

/-- Folding stopTracking removes every processed key from all three maps. -/
theorem foldl_stopTracking_lookup_mem (l : List String) :
    ∀ (acc : Tracker) (p : String), p ∈ l →
      dictGet? (l.foldl stopTracking acc).tracking_tasks p = none ∧
      dictGet? (l.foldl stopTracking acc).order_books p = none ∧
      dictGet? (l.foldl stopTracking acc).tracking_message_queues p = none := by
  induction l with
  | nil => intro acc p hmem; cases hmem
  | cons q rest ih =>
    intro acc p hmem
    rw [List.foldl_cons]
    by_cases hpr : p ∈ rest
    · exact ih _ p hpr
    · have hpq : p = q := by
        rcases List.mem_cons.mp hmem with he | he
        · exact he
        · exact absurd he hpr
      subst hpq
      have h1 := stopTracking_lookup_self acc p
      have h2 := foldl_stopTracking_lookup_not_mem rest (stopTracking acc p) p hpr
      exact ⟨h2.1.trans h1.1, h2.2.1.trans h1.2.1, h2.2.2.trans h1.2.2⟩

/-- Folding stopTracking cancels the task bound to every processed key. -/
theorem foldl_stopTracking_cancel (l : List String) :
    ∀ (acc : Tracker) (p : String) (task : PyTask), p ∈ l →
      dictGet? acc.tracking_tasks p = some task →
      task.id ∈ (l.foldl stopTracking acc).cancel_signals := by
  induction l with
  | nil => intro _ _ _ hmem _; cases hmem
  | cons q rest ih =>
    intro acc p task hmem h
    rw [List.foldl_cons]
    by_cases hpq : p = q
    · subst hpq
      have hsig : task.id ∈ (stopTracking acc p).cancel_signals := by
        rw [stopTracking_cancel_signal acc p task h]
        simp
      exact foldl_stopTracking_signals_mono rest _ task.id hsig
    · rcases List.mem_cons.mp hmem with he | hmem2
      · exact absurd he hpq
      · have h2 : dictGet? (stopTracking acc q).tracking_tasks p = some task := by
          rw [(stopTracking_lookup_ne acc q p hpq).1]
          exact h
        exact ih _ p task hmem2 h2

end RefreshLemmas

/-- A tracker tracking pair B, whose reconciliation buffer holds one diff. -/
def exRefreshTracker : Tracker :=
  { emptyTracker with
    tracking_tasks := [("B", { id := 7, done := false })]
    order_books := [("B", exBook)]
    tracking_message_queues := [("B", [])]
    past_diffs_windows := [("B", [exStaleMsg])] }

/-- C3 counterexample: with an empty directory result, one Refresher cycle
removes pair B's tracking task, Book State and inbound queue and cancels its
worker, but B's Reconciliation Buffer entry is NOT removed from the tracker's
past-diffs-windows map, contradicting the claim that all three are removed. -/
theorem C3_claim_counterexample :
    dictGet? (refreshTrackingTasks exRefreshTracker [] (fun _ => 99)).tracking_tasks
      "B" = none ∧
    dictGet? (refreshTrackingTasks exRefreshTracker [] (fun _ => 99)).order_books
      "B" = none ∧
    dictGet?
      (refreshTrackingTasks exRefreshTracker [] (fun _ => 99)).tracking_message_queues
      "B" = none ∧
    (7 : Nat) ∈ (refreshTrackingTasks exRefreshTracker [] (fun _ => 99)).cancel_signals ∧
    dictGet? (refreshTrackingTasks exRefreshTracker [] (fun _ => 99)).past_diffs_windows
      "B" = some [exStaleMsg] :=
  ⟨rfl, rfl, rfl, by decide, rfl⟩

/-- C3 (amended): after one Refresher cycle, every instrument in the directory
result but not currently tracked gets its Book State registered, an inbound
queue created, and a live Worker task spawned; every instrument currently
tracked (live task) but absent from the directory result has its Worker
cancelled and its task, Book State, and inbound queue removed from the
Tracker's maps — but its Reconciliation Buffer entry is NOT removed: the
past_diffs_windows map is left entirely unchanged by the cycle. -/
theorem C3_refresh_tracking (t : Tracker)
    (available : List (String × OrderBookTrackerEntry)) (f : String → Nat) :
    (refreshTrackingTasks t available f).past_diffs_windows = t.past_diffs_windows ∧
    (∀ p task,
      dictGet? t.tracking_tasks p = some task → task.done = false →
      p ∉ available.map Prod.fst →
      dictGet? (refreshTrackingTasks t available f).tracking_tasks p = none ∧
      dictGet? (refreshTrackingTasks t available f).order_books p = none ∧
      dictGet? (refreshTrackingTasks t available f).tracking_message_queues p = none ∧
      task.id ∈ (refreshTrackingTasks t available f).cancel_signals) ∧
    (∀ p entry,
      (available.map Prod.fst).Nodup → p ∉ trackedPairs t →
      dictGet? available p = some entry →
      dictGet? (refreshTrackingTasks t available f).order_books p =
        some entry.order_book ∧
      dictGet? (refreshTrackingTasks t available f).tracking_message_queues p =
        some [] ∧
      dictGet? (refreshTrackingTasks t available f).tracking_tasks p =
        some { id := f p, done := false }) := by
  have hR : refreshTrackingTasks t available f =
      ((trackedPairs t).filter
          (fun p => decide (p ∉ available.map Prod.fst))).foldl stopTracking
        (((available.map Prod.fst).filter
            (fun p => decide (p ∉ trackedPairs t))).foldl
          (startTracking f available) t) := rfl
  rw [hR]
  refine ⟨?_, ?_, ?_⟩
  · rw [foldl_stopTracking_untouched,
      (foldl_startTracking_untouched _ f available t).1]
  · intro p task htask hdone hpavail
    have hp_tracked : p ∈ trackedPairs t := mem_trackedPairs t p task htask hdone
    have hdel : p ∈ (trackedPairs t).filter
        (fun p => decide (p ∉ available.map Prod.fst)) := by
      rw [List.mem_filter]
      exact ⟨hp_tracked, decide_eq_true hpavail⟩
    have hnew : p ∉ (available.map Prod.fst).filter
        (fun p => decide (p ∉ trackedPairs t)) := by
      intro hmem
      exact hpavail (List.mem_filter.mp hmem).1
    have hstart := foldl_startTracking_lookup_not_mem
      ((available.map Prod.fst).filter (fun p => decide (p ∉ trackedPairs t)))
      f available t p hnew
    have hstop := foldl_stopTracking_lookup_mem
      ((trackedPairs t).filter (fun p => decide (p ∉ available.map Prod.fst)))
      (((available.map Prod.fst).filter
          (fun p => decide (p ∉ trackedPairs t))).foldl (startTracking f available) t)
      p hdel
    have htask1 : dictGet?
        ((((available.map Prod.fst).filter
            (fun p => decide (p ∉ trackedPairs t))).foldl
          (startTracking f available) t).tracking_tasks) p = some task := by
      rw [hstart.2.2]
      exact htask
    refine ⟨hstop.1, hstop.2.1, hstop.2.2, ?_⟩
    exact foldl_stopTracking_cancel _ _ p task hdel htask1
  · intro p entry hnd hptr ha
    have hpavail : p ∈ available.map Prod.fst := dictGet_mem_keys available p entry ha
    have hpnew : p ∈ (available.map Prod.fst).filter
        (fun p => decide (p ∉ trackedPairs t)) := by
      rw [List.mem_filter]
      exact ⟨hpavail, decide_eq_true hptr⟩
    have hndnew : ((available.map Prod.fst).filter
        (fun p => decide (p ∉ trackedPairs t))).Nodup := hnd.filter _
    have hstart := foldl_startTracking_lookup_mem _ f available p entry ha t
      hpnew hndnew
    have hpdel : p ∉ (trackedPairs t).filter
        (fun p => decide (p ∉ available.map Prod.fst)) := by
      intro hmem
      have hx := (List.mem_filter.mp hmem).2
      exact of_decide_eq_true hx hpavail
    have hstop := foldl_stopTracking_lookup_not_mem
      ((trackedPairs t).filter (fun p => decide (p ∉ available.map Prod.fst)))
      (((available.map Prod.fst).filter
          (fun p => decide (p ∉ trackedPairs t))).foldl (startTracking f available) t)
      p hpdel
    exact ⟨hstop.2.1.trans hstart.1, hstop.2.2.trans hstart.2.1,
      hstop.1.trans hstart.2.2⟩

/-- C3 witness: the amended theorem applied to a tracker tracking only B and a
directory reporting only A: A gets book, queue and a live task. -/
theorem C3_refresh_tracking_witness :
    dictGet?
      (refreshTrackingTasks exRefreshTracker [("A", { order_book := exBook })]
        (fun _ => 99)).order_books "A" = some exBook ∧
    dictGet?
      (refreshTrackingTasks exRefreshTracker [("A", { order_book := exBook })]
        (fun _ => 99)).tracking_message_queues "A" = some [] ∧
    dictGet?
      (refreshTrackingTasks exRefreshTracker [("A", { order_book := exBook })]
        (fun _ => 99)).tracking_tasks "A" = some { id := 99, done := false } :=
  (C3_refresh_tracking exRefreshTracker [("A", { order_book := exBook })]
      (fun _ => 99)).2.2 "A" { order_book := exBook } (by decide) (by decide) rfl

end OrderBookTrackerSpec
